import Mathlib

/-!
Verification of the Enterosignature Transformer streamlit wrapper
(`enterosig_sl.py`): a shallow embedding of the application's data flow,
packaging, logging and error handling, with theorems settling the
specification's claims about it.

The core reapplication pipeline (`cvanmf.reapply.transform_table`) is a
library dependency whose source is not part of this repository; where a
claim depends on its behaviour, a definition modelled from the spec stands
in for it and is marked as such in its doc comment.
-/

/-- A tabular artifact: row index labels, column labels, and string cells.
Embeds the `pandas.DataFrame` values the wrapper passes around and
serialises (the wrapper never inspects numeric contents). -/
structure DataFrame where
  index : List String
  columns : List String
  cells : List (List String)
  deriving DecidableEq

/-- Serialise a `DataFrame` as the wrapper's `to_csv(sep="\t")` does:
a header line (empty index-name field then the column labels) followed by
one line per row, fields tab-separated. -/
def toCsv (d : DataFrame) : String :=
  String.intercalate "\n"
    (String.intercalate "\t" ("" :: d.columns) ::
      (List.zipWith (fun i r => String.intercalate "\t" (i :: r)) d.index d.cells))

/-- Modelled from the spec: `cvanmf.models.five_es()`, the fixed pretrained
reference basis W with five signature columns, loaded once at module import
(line 30, `ES_W_MATRIX`). Its concrete entries are irrelevant to the claims;
what matters is that it is a single fixed value. -/
def five_es : DataFrame :=
  { index := ["Bacteroides", "Bifidobacterium", "Escherichia", "Faecalibacterium", "Prevotella"]
    columns := ["ES_Bact", "ES_Bifi", "ES_Esch", "ES_Firm", "ES_Prev"]
    cells := [["1", "0", "0", "0", "0"], ["0", "1", "0", "0", "0"],
              ["0", "0", "1", "0", "0"], ["0", "0", "0", "1", "0"],
              ["0", "0", "0", "0", "1"]] }

/-- The module-level constant `ES_W_MATRIX: pd.DataFrame = cvanmf.models.five_es()`
(line 30). -/
def ES_W_MATRIX : DataFrame := five_es

/-- Embeds the `Logger` class (lines 54-70): messages are collected in order
in `__loglines`. -/
structure Logger where
  loglines : List String
  deriving DecidableEq

/-- `Logger.log` (lines 62-65): append the message to the collected lines
(the on-screen `st.write` is presentation only). -/
def Logger.log (l : Logger) (message : String) : Logger :=
  { loglines := l.loglines ++ [message] }

/-- `Logger.__init__` (lines 58-60): start empty, then log the date line
through the same `log` sink. The current date is a parameter of the model. -/
def Logger.init (today : String) : Logger :=
  Logger.log { loglines := [] } ("Date: " ++ today)

/-- `Logger.to_file` (lines 67-70): `"\n".join(self.__loglines)`. -/
def Logger.to_file (l : Logger) : String :=
  String.intercalate "\n" l.loglines

/-- A sequence of calls to the `Logger.log` sink, in order. -/
def Logger.logAll (l : Logger) (messages : List String) : Logger :=
  messages.foldl Logger.log l

/-! ### The uploaded-file parser

Embeds line 128, `abd_tbl = pd.read_csv(abd_file, sep="\t", index_col=0)`:
the uploaded bytes are split into lines, each line into tab-separated
fields; the first line supplies the column labels (its first field is the
index name, dropped), and the first field of every following line is the
row (taxon) index label. Characters are modelled as `List Char` so that
splitting is a primitive recursive function we control. -/

/-- Split a character list at every occurrence of the separator `c`.
Always returns at least one (possibly empty) field. -/
def splitOnChar (c : Char) : List Char → List (List Char)
  | [] => [[]]
  | x :: xs =>
    if x = c then [] :: splitOnChar c xs
    else
      match splitOnChar c xs with
      | [] => [[x]]
      | y :: ys => (x :: y) :: ys

/-- Join a list of fields with the separator `c` between consecutive
fields (the inverse direction of `splitOnChar`). -/
def joinWith (c : Char) : List (List Char) → List Char
  | [] => []
  | [p] => p
  | p :: q :: ps => p ++ c :: joinWith c (q :: ps)

/-- The parsed table: taxon identifiers (row index), sample identifiers
(columns), and the remaining cells. -/
structure CharFrame where
  index : List (List Char)
  columns : List (List Char)
  cells : List (List (List Char))
  deriving DecidableEq

/-- `pd.read_csv(abd_file, sep="\t", index_col=0)` (line 128): tab-separated
parse with the first column as the row index. -/
def read_csv (contents : List Char) : CharFrame :=
  match (splitOnChar '\n' contents).map (splitOnChar '\t') with
  | [] => { index := [], columns := [], cells := [] }
  | header :: rows =>
    { index := rows.map (fun r => r.headD [])
      columns := header.drop 1
      cells := rows.map (fun r => r.drop 1) }

/-- Render a grid of fields as a tab-separated, newline-delimited file
(the format the spec requires of uploads). -/
def renderTsv (rows : List (List (List Char))) : List Char :=
  joinWith '\n' (rows.map (joinWith '\t'))

/-! ### The transformation call and the application flow -/

/-- One invocation of the core `cvanmf.reapply.transform_table`, recording
the arguments the wrapper passes (lines 85-89). The logging callback the
wrapper injects is `es_log.log`; its effect is modelled by the messages the
core returns (see `runUpload`). -/
structure TransformCall where
  abundance : CharFrame
  rollup : Bool
  model_w : DataFrame
  hard_mapping : List (String × String)
  deriving DecidableEq

/-- The result object the core returns (`cvanmf.denovo.Decomposition`),
seen through the attribute surface the wrapper uses (lines 133-190):
each field is the tabular artifact the corresponding attribute or method
call yields. -/
structure Decomposition where
  w : DataFrame
  h : DataFrame
  scaled_w : DataFrame
  scaled_h : DataFrame
  x : DataFrame
  model_fit : DataFrame
  quality_series : DataFrame
  primary_signature : DataFrame
  representative_signatures : DataFrame
  monodominant_samples : DataFrame
  feature_mapping : DataFrame
  colors : List (String × String)
  deriving DecidableEq

/-- `_transform_table` (lines 85-89): builds the core call with
`rollup=family_rollup`, `model_w=_get_es_w()` and `hard_mapping={}`. -/
def transform_call (abd : CharFrame) (family_rollup : Bool) (w : DataFrame) :
    TransformCall :=
  { abundance := abd, rollup := family_rollup, model_w := w, hard_mapping := [] }

/-- The default value of the rollup toggle: `col_opts.toggle(..., value=True, ...)`
(line 107). -/
def ROLLUP_DEFAULT : Bool := true

/-- The color mapping assigned on line 133-139. -/
def es_colors : List (String × String) :=
  [("ES_Esch", "#483838"), ("ES_Bifi", "#009E73"), ("ES_Bact", "#E69F00"),
   ("ES_Prev", "#D55E00"), ("ES_Firm", "#023e8a")]

/-- Contents of the packaged `README.txt`, read from the `cvanmf.data`
package resources (line 47); its text is external to this repository. -/
def readme_content : String := "cvanmf package data README"

/-- `_zip_items` (lines 36-48): one archive entry per supplied
(name, contents) pair, in order, then the readme is always added. -/
def zip_items (items : List (String × String)) : List (String × String) :=
  items ++ [("README.txt", readme_content)]

/-- The items zipped on success (lines 145-161): the twelve artifacts, in
the order the wrapper lists them. -/
def resultItems (transformed : Decomposition) (log : Logger) :
    List (String × String) :=
  [ ("w.tsv", toCsv transformed.w),
    ("h.tsv", toCsv transformed.h),
    ("w_scaled.tsv", toCsv transformed.scaled_w),
    ("h_scaled.tsv", toCsv transformed.scaled_h),
    ("x.tsv", toCsv transformed.x),
    ("model_fit.tsv", toCsv transformed.model_fit),
    ("quality_measures.tsv", toCsv transformed.quality_series),
    ("primary_signatures.tsv", toCsv transformed.primary_signature),
    ("representative_signatures.tsv", toCsv transformed.representative_signatures),
    ("monodominant_samples.tsv", toCsv transformed.monodominant_samples),
    ("taxon_mapping.tsv", toCsv transformed.feature_mapping),
    ("log.txt", Logger.to_file log) ]

/-- The plots rendered in the results expander (lines 172-191): the
relative-weight plot and the model-fit plot unconditionally, then the PCoA
plot only when H has fewer than 500 sample columns (`transformed.h.shape[1]
< 500`, line 188). -/
def plots_drawn (transformed : Decomposition) : List String :=
  ["relative_weight", "modelfit"] ++
    (if transformed.h.columns.length < 500 then ["pcoa"] else [])

/-- The session state the script manipulates: the `uploaded` flag
(lines 95-96, 193) and the module-level basis loaded at import (line 30). -/
structure AppState where
  uploaded : Bool
  es_w : DataFrame
  deriving DecidableEq

/-- Script startup (lines 30 and 95-96): the basis is loaded once, and
`uploaded` defaults to `False` when absent from the session. -/
def startup (session_uploaded : Option Bool) : AppState :=
  { uploaded := session_uploaded.getD false, es_w := ES_W_MATRIX }

/-- The observable outcome of one run of the upload branch. -/
structure AppOutcome where
  state : AppState
  transform_calls : List TransformCall
  res_zip : Option (List (String × String))
  download_offered : Bool
  plots : List String
  error_message : Option String
  deriving DecidableEq

/-- The upload branch of the script (lines 120-196), run when a file is
present. The core `transform_table` is a parameter `core` (its source is a
library dependency outside this repository); it either raises an
`EnteroException` carrying a message, or returns the decomposition together
with the lines it pushed through the injected `es_log.log` callback. On an
exception the handler on lines 195-196 writes the cause and nothing else
happens; on success the zip is assembled, the download offered, the plots
drawn and the `uploaded` flag set (line 193). -/
def runUpload (s : AppState) (log : Logger) (contents : List Char)
    (opt_rollup : Bool)
    (core : TransformCall → Except String (Decomposition × List String)) :
    AppOutcome :=
  let abd_tbl := read_csv contents
  let call := transform_call abd_tbl opt_rollup s.es_w
  match core call with
  | Except.error err =>
    { state := s, transform_calls := [call], res_zip := none,
      download_offered := false, plots := [],
      error_message := some ("Unable to transform: " ++ err) }
  | Except.ok (transformed0, messages) =>
    let transformed := { transformed0 with colors := es_colors }
    let log1 := Logger.logAll log messages
    { state := { s with uploaded := true },
      transform_calls := [call],
      res_zip := some (zip_items (resultItems transformed log1)),
      download_offered := true,
      plots := plots_drawn transformed,
      error_message := none }

/-! ### Spec-modelled core components

`cvanmf.reapply.transform_table` is imported from a library whose source is
not in this repository; the following definitions model the parts of it the
claims mention, faithful to the spec's words. -/

/-- Modelled from the spec: parsing a hierarchical taxon label into its
ancestor one rank up ("domain…species levels delimited by a known
separator", here `;`). -/
def parent_taxon (t : String) : Option String :=
  match t.splitOn ";" with
  | [] => none
  | [_] => none
  | parts => some (String.intercalate ";" parts.dropLast)

/-- Modelled from the spec: the TaxonomicReconciler's per-taxon resolution
(`cvanmf.reapply`, not in this repository's sources). `hard_mapping` is
"applied first and unconditionally, taking precedence over any computed
match"; otherwise matching is by exact equality against the reference
vocabulary, with, when `rollup_enabled`, aggregation upward to the nearest
ancestor rank present in the vocabulary; taxa that still fail to resolve
are recorded as unmapped (`none`). -/
def resolve_taxon (hard_mapping : List (String × String))
    (vocab : List String) (rollup_enabled : Bool) (taxon : String) :
    Option String :=
  match hard_mapping.lookup taxon with
  | some r => some r
  | none =>
    if taxon ∈ vocab then some taxon
    else if rollup_enabled then
      match parent_taxon taxon with
      | some anc => if anc ∈ vocab then some anc else none
      | none => none
    else none

/-- Dot product of two rational vectors. -/
def dot (u v : List ℚ) : ℚ :=
  (List.zipWith (· * ·) u v).sum

/-- Matrix-vector product, the matrix given as a list of rows. -/
def matVec (m : List (List ℚ)) (v : List ℚ) : List ℚ :=
  m.map (fun row => dot row v)

/-- Modelled from the spec: one multiplicative update of the per-sample
non-negative solve, `h ← h ∘ (Wᵀx) / (WᵀWh)` (the spec leaves the exact
objective open; it requires only a deterministic, fixed-basis,
non-negative update). -/
def mu_step (w : List (List ℚ)) (x h : List ℚ) : List ℚ :=
  List.zipWith (fun hi nd => hi * (nd.1 / nd.2)) h
    ((matVec w.transpose x).zip (matVec w.transpose (matVec w h)))

/-- Squared reconstruction discrepancy between `W·h` and `x`. -/
def recon_error (w : List (List ℚ)) (x h : List ℚ) : ℚ :=
  ((List.zipWith (fun a b => (a - b) ^ 2) (matVec w h) x)).sum

/-- Modelled from the spec: the iteration loop of the per-sample solve,
stopping when the relative change in reconstruction error falls below the
fixed tolerance or the iteration cap is exhausted. -/
def project_go (w : List (List ℚ)) (x : List ℚ) (tol : ℚ) :
    ℕ → List ℚ → List ℚ
  | 0, h => h
  | n + 1, h =>
    let h1 := mu_step w x h
    if |recon_error w x h - recon_error w x h1| ≤ tol * recon_error w x h then h1
    else project_go w x tol n h1

/-- Modelled from the spec: the BasisProjector's per-sample solve
(`cvanmf.reapply`, not in this repository's sources), a pure function of
(basis, target vector, iteration cap, tolerance) with a fixed all-ones
initialization — "no randomized initialization is required". -/
def project (w : List (List ℚ)) (x : List ℚ) (cap : ℕ) (tol : ℚ) :
    List ℚ :=
  project_go w x tol cap (x.map (fun _ => 1))

/-- Modelled from the spec: solving the weight matrix H column by column,
each sample (column of X) independently. -/
def transform_h (w xMat : List (List ℚ)) (cap : ℕ) (tol : ℚ) :
    List (List ℚ) :=
  xMat.transpose.map (fun x => project w x cap tol)

/-! ### Helper lemmas -/

/-- A field containing no separator splits to itself alone. -/
theorem splitOnChar_of_not_mem (c : Char) :
    ∀ (p : List Char), c ∉ p → splitOnChar c p = [p]
  | [], _ => rfl
  | x :: xs, h => by
    have hx : ¬ x = c := fun hh => h (hh ▸ List.mem_cons_self x xs)
    have hxs : c ∉ xs := fun hh => h (List.mem_cons_of_mem _ hh)
    simp only [splitOnChar, if_neg hx, splitOnChar_of_not_mem c xs hxs]

/-- Splitting a separator-free field followed by a separator peels off that
field. -/
theorem splitOnChar_append_cons (c : Char) :
    ∀ (p rest : List Char), c ∉ p →
      splitOnChar c (p ++ c :: rest) = p :: splitOnChar c rest
  | [], rest, _ => by simp [splitOnChar]
  | x :: xs, rest, h => by
    have hx : ¬ x = c := fun hh => h (hh ▸ List.mem_cons_self x xs)
    have hxs : c ∉ xs := fun hh => h (List.mem_cons_of_mem _ hh)
    simp only [List.cons_append, splitOnChar, if_neg hx, List.append_eq,
      splitOnChar_append_cons c xs rest hxs]

/-- `splitOnChar` undoes `joinWith` on a nonempty list of separator-free
fields. -/
theorem splitOnChar_joinWith (c : Char) :
    ∀ (ps : List (List Char)), ps ≠ [] → (∀ p ∈ ps, c ∉ p) →
      splitOnChar c (joinWith c ps) = ps
  | [], hne, _ => absurd rfl hne
  | [p], _, h => by
    simp only [joinWith]
    exact splitOnChar_of_not_mem c p (h p (by simp))
  | p :: q :: ps, _, h => by
    simp only [joinWith]
    rw [splitOnChar_append_cons c p _ (h p (by simp)),
      splitOnChar_joinWith c (q :: ps) (by simp)
        (fun r hr => h r (List.mem_cons_of_mem _ hr))]

/-- Joining fields with one separator introduces no occurrence of a
different separator. -/
theorem not_mem_joinWith (c d : Char) (hcd : c ≠ d) :
    ∀ (r : List (List Char)), (∀ f ∈ r, c ∉ f) → c ∉ joinWith d r
  | [], _ => by simp [joinWith]
  | [p], h => by simpa [joinWith] using h p (by simp)
  | p :: q :: ps, h => by
    simp only [joinWith, List.mem_append, List.mem_cons]
    push_neg
    refine ⟨h p (by simp), hcd, ?_⟩
    have := not_mem_joinWith c d hcd (q :: ps)
      (fun f hf => h f (List.mem_cons_of_mem _ hf))
    simpa using this

/-- The logger accumulates exactly the messages passed to its sink, in
order. -/
theorem Logger.logAll_loglines :
    ∀ (messages : List String) (l : Logger),
      (Logger.logAll l messages).loglines = l.loglines ++ messages
  | [], l => by simp [Logger.logAll]
  | m :: ms, l => by
    simp only [Logger.logAll, List.foldl_cons]
    rw [show List.foldl Logger.log (Logger.log l m) ms
        = Logger.logAll (Logger.log l m) ms from rfl,
      Logger.logAll_loglines ms (Logger.log l m)]
    simp [Logger.log]

/-- Whatever the core returns, the wrapper makes exactly one transformation
call, built by `_transform_table`. -/
theorem runUpload_transform_calls (s : AppState) (log : Logger)
    (contents : List Char) (opt_rollup : Bool)
    (core : TransformCall → Except String (Decomposition × List String)) :
    (runUpload s log contents opt_rollup core).transform_calls
      = [transform_call (read_csv contents) opt_rollup s.es_w] := by
  cases hcore : core (transform_call (read_csv contents) opt_rollup s.es_w) with
  | error e => simp [runUpload, hcore]
  | ok p => obtain ⟨d, msgs⟩ := p; simp [runUpload, hcore]

/-- The basis held in the session state is untouched by a run of the upload
branch. -/
theorem runUpload_es_w (s : AppState) (log : Logger)
    (contents : List Char) (opt_rollup : Bool)
    (core : TransformCall → Except String (Decomposition × List String)) :
    (runUpload s log contents opt_rollup core).state.es_w = s.es_w := by
  cases hcore : core (transform_call (read_csv contents) opt_rollup s.es_w) with
  | error e => simp [runUpload, hcore]
  | ok p => obtain ⟨d, msgs⟩ := p; simp [runUpload, hcore]

/-! ### Claim theorems -/

/-- C1: if the transformation raises an `EnteroException`, the upload branch
halts: the cause is presented (`"Unable to transform: ..."`), no results zip
is assembled, no download is offered, and the session state — in particular
its `uploaded` flag — is unchanged. -/
theorem entero_exception_halts (s : AppState) (log : Logger)
    (contents : List Char) (opt_rollup : Bool)
    (core : TransformCall → Except String (Decomposition × List String))
    (err : String)
    (hcore : core (transform_call (read_csv contents) opt_rollup s.es_w)
      = Except.error err) :
    (runUpload s log contents opt_rollup core).res_zip = none ∧
    (runUpload s log contents opt_rollup core).download_offered = false ∧
    (runUpload s log contents opt_rollup core).state = s ∧
    (runUpload s log contents opt_rollup core).error_message
      = some ("Unable to transform: " ++ err) := by
  simp [runUpload, hcore]

/-- Witness for C1 at a concrete failing run. -/
theorem entero_exception_halts_witness :
    (runUpload (startup none) (Logger.init "2024-05-01") "a\tb".toList true
      (fun _ => Except.error "nothing mapped")).res_zip = none ∧
    (runUpload (startup none) (Logger.init "2024-05-01") "a\tb".toList true
      (fun _ => Except.error "nothing mapped")).download_offered = false ∧
    (runUpload (startup none) (Logger.init "2024-05-01") "a\tb".toList true
      (fun _ => Except.error "nothing mapped")).state = startup none ∧
    (runUpload (startup none) (Logger.init "2024-05-01") "a\tb".toList true
      (fun _ => Except.error "nothing mapped")).error_message
      = some ("Unable to transform: " ++ "nothing mapped") :=
  entero_exception_halts (startup none) (Logger.init "2024-05-01")
    "a\tb".toList true (fun _ => Except.error "nothing mapped")
    "nothing mapped" rfl

/-- C2: on a successful transformation the produced archive consists of the
twelve promised artifacts, in the wrapper's order, followed by the readme
the packaging step always appends. -/
theorem results_zip_artifacts (s : AppState) (log : Logger)
    (contents : List Char) (opt_rollup : Bool)
    (core : TransformCall → Except String (Decomposition × List String))
    (transformed0 : Decomposition) (messages : List String)
    (hcore : core (transform_call (read_csv contents) opt_rollup s.es_w)
      = Except.ok (transformed0, messages)) :
    ((runUpload s log contents opt_rollup core).res_zip.getD []).map Prod.fst
      = ["w.tsv", "h.tsv", "w_scaled.tsv", "h_scaled.tsv", "x.tsv",
         "model_fit.tsv", "quality_measures.tsv", "primary_signatures.tsv",
         "representative_signatures.tsv", "monodominant_samples.tsv",
         "taxon_mapping.tsv", "log.txt", "README.txt"] := by
  simp [runUpload, hcore, zip_items, resultItems]

/-- Witness for C2 at a concrete successful run. -/
theorem results_zip_artifacts_witness :
    ((runUpload (startup none) (Logger.init "2024-05-01") "a\tb".toList true
      (fun _ => Except.ok
        ({ w := five_es, h := five_es, scaled_w := five_es,
           scaled_h := five_es, x := five_es, model_fit := five_es,
           quality_series := five_es, primary_signature := five_es,
           representative_signatures := five_es,
           monodominant_samples := five_es, feature_mapping := five_es,
           colors := [] }, ["mapped 5 of 5 taxa"]))).res_zip.getD []).map
      Prod.fst
      = ["w.tsv", "h.tsv", "w_scaled.tsv", "h_scaled.tsv", "x.tsv",
         "model_fit.tsv", "quality_measures.tsv", "primary_signatures.tsv",
         "representative_signatures.tsv", "monodominant_samples.tsv",
         "taxon_mapping.tsv", "log.txt", "README.txt"] :=
  results_zip_artifacts (startup none) (Logger.init "2024-05-01")
    "a\tb".toList true _
    { w := five_es, h := five_es, scaled_w := five_es, scaled_h := five_es,
      x := five_es, model_fit := five_es, quality_series := five_es,
      primary_signature := five_es, representative_signatures := five_es,
      monodominant_samples := five_es, feature_mapping := five_es,
      colors := [] } ["mapped 5 of 5 taxa"] rfl

/-- C3: the rollup toggle is a boolean flag defaulting to enabled, and its
value is passed unchanged as the `rollup` argument of every transformation
call the wrapper makes. -/
theorem rollup_flag_forwarded (s : AppState) (log : Logger)
    (contents : List Char) (opt_rollup : Bool)
    (core : TransformCall → Except String (Decomposition × List String)) :
    ROLLUP_DEFAULT = true ∧
    ∀ c ∈ (runUpload s log contents opt_rollup core).transform_calls,
      c.rollup = opt_rollup := by
  refine ⟨rfl, ?_⟩
  intro c hc
  rw [runUpload_transform_calls] at hc
  simp only [List.mem_singleton] at hc
  subst hc
  rfl

/-- C4: a hard-mapping entry is honoured first and unconditionally by the
reconciler (modelled from the spec, see `resolve_taxon`), and every
transformation call this wrapper makes passes the empty hard mapping. -/
theorem hard_mapping_override_and_empty
    (hard : List (String × String)) (vocab : List String)
    (rollup_enabled : Bool) (taxon ref : String)
    (hlook : hard.lookup taxon = some ref)
    (s : AppState) (log : Logger) (contents : List Char) (opt_rollup : Bool)
    (core : TransformCall → Except String (Decomposition × List String)) :
    resolve_taxon hard vocab rollup_enabled taxon = some ref ∧
    ∀ c ∈ (runUpload s log contents opt_rollup core).transform_calls,
      c.hard_mapping = [] := by
  constructor
  · simp [resolve_taxon, hlook]
  · intro c hc
    rw [runUpload_transform_calls] at hc
    simp only [List.mem_singleton] at hc
    subst hc
    rfl

/-- Witness for C4 at a concrete mapping and run. -/
theorem hard_mapping_override_and_empty_witness :
    resolve_taxon [("g__Escherichia", "Escherichia")] [] false
      "g__Escherichia" = some "Escherichia" ∧
    ∀ c ∈ (runUpload (startup none) (Logger.init "2024-05-01") "a\tb".toList
      true (fun _ => Except.error "nope")).transform_calls,
      c.hard_mapping = [] :=
  hard_mapping_override_and_empty [("g__Escherichia", "Escherichia")] []
    false "g__Escherichia" "Escherichia" (by decide) (startup none)
    (Logger.init "2024-05-01") "a\tb".toList true
    (fun _ => Except.error "nope")

/-- C5: the reference basis is loaded once at startup (`ES_W_MATRIX`, the
`five_es` model), every transformation call receives exactly that matrix,
and no run of the upload branch changes it. -/
theorem basis_loaded_once_never_mutated (session_uploaded : Option Bool)
    (log : Logger) (contents : List Char) (opt_rollup : Bool)
    (core : TransformCall → Except String (Decomposition × List String)) :
    (startup session_uploaded).es_w = ES_W_MATRIX ∧
    ES_W_MATRIX = five_es ∧
    (∀ c ∈ (runUpload (startup session_uploaded) log contents opt_rollup
        core).transform_calls,
      c.model_w = (startup session_uploaded).es_w) ∧
    (runUpload (startup session_uploaded) log contents opt_rollup
        core).state.es_w
      = (startup session_uploaded).es_w := by
  refine ⟨rfl, rfl, ?_, runUpload_es_w _ _ _ _ _⟩
  intro c hc
  rw [runUpload_transform_calls] at hc
  simp only [List.mem_singleton] at hc
  subst hc
  rfl

/-- C6: the accumulated log artifact `log.txt` equals the newline-join of
every message passed to the injected `Logger.log` sink, in call order
(the constructor's date line being the first such call). -/
theorem log_artifact_joins_messages (today : String) (messages : List String)
    (transformed : Decomposition) :
    (resultItems transformed
        (Logger.logAll (Logger.init today) messages)).lookup "log.txt"
      = some (String.intercalate "\n" (("Date: " ++ today) :: messages)) := by
  have hfile : (Logger.logAll (Logger.init today) messages).to_file
      = String.intercalate "\n" (("Date: " ++ today) :: messages) := by
    unfold Logger.to_file
    rw [Logger.logAll_loglines]
    rfl
  rw [← hfile]
  rfl

/-- C7: parsing a rendered tab-separated table takes the first field of
every data line as the taxon (row index) identifier and the remaining
header fields as the sample (column) identifiers. -/
theorem read_csv_first_column_index (header : List (List Char))
    (dataRows : List (List (List Char)))
    (hne : ∀ r ∈ header :: dataRows, r ≠ ([] : List (List Char)))
    (hfield : ∀ r ∈ header :: dataRows, ∀ f ∈ r, '\t' ∉ f ∧ '\n' ∉ f) :
    (read_csv (renderTsv (header :: dataRows))).index
      = dataRows.map (fun r => r.headD []) ∧
    (read_csv (renderTsv (header :: dataRows))).columns = header.drop 1 := by
  have hlines : splitOnChar '\n' (renderTsv (header :: dataRows))
      = (header :: dataRows).map (joinWith '\t') := by
    apply splitOnChar_joinWith
    · simp
    · intro p hp
      rcases List.mem_map.mp hp with ⟨r, hr, rfl⟩
      exact not_mem_joinWith '\n' '\t' (by decide) r
        (fun f hf => (hfield r hr f hf).2)
  have hparse : (splitOnChar '\n' (renderTsv (header :: dataRows))).map
      (splitOnChar '\t') = header :: dataRows := by
    rw [hlines, List.map_map]
    have hpt : ∀ r ∈ header :: dataRows,
        (splitOnChar '\t' ∘ joinWith '\t') r = id r := by
      intro r hr
      simp only [Function.comp_apply, id_eq]
      exact splitOnChar_joinWith '\t' r (hne r hr)
        (fun f hf => (hfield r hr f hf).1)
    rw [List.map_congr_left hpt, List.map_id]
  rw [show read_csv (renderTsv (header :: dataRows))
      = { index := dataRows.map (fun r => r.headD []),
          columns := header.drop 1,
          cells := dataRows.map (fun r => r.drop 1) } from by
    unfold read_csv
    rw [hparse]]
  exact ⟨rfl, rfl⟩

/-- Witness for C7 at a concrete two-line table. -/
theorem read_csv_first_column_index_witness :
    (read_csv (renderTsv ([['i'], ['s']] :: [[['t'], ['1']]]))).index
      = [['t']] ∧
    (read_csv (renderTsv ([['i'], ['s']] :: [[['t'], ['1']]]))).columns
      = [['s']] :=
  read_csv_first_column_index [['i'], ['s']] [[['t'], ['1']]]
    (by decide) (by decide)

/-- C8: the per-sample solve is a pure function of the basis, the input,
the iteration cap and the tolerance (modelled from the spec, see
`transform_h`): two runs on equal inputs produce identical weight
solutions H. -/
theorem projection_deterministic (w1 w2 x1 x2 : List (List ℚ))
    (cap1 cap2 : ℕ) (tol1 tol2 : ℚ)
    (hw : w1 = w2) (hx : x1 = x2) (hcap : cap1 = cap2) (htol : tol1 = tol2) :
    transform_h w1 x1 cap1 tol1 = transform_h w2 x2 cap2 tol2 := by
  subst hw
  subst hx
  subst hcap
  subst htol
  rfl

/-- Witness for C8 at a concrete basis and sample. -/
theorem projection_deterministic_witness :
    transform_h [[1, 0], [0, 1]] [[1], [0]] 10 0
      = transform_h [[1, 0], [0, 1]] [[1], [0]] 10 0 :=
  projection_deterministic [[1, 0], [0, 1]] [[1, 0], [0, 1]]
    [[1], [0]] [[1], [0]] 10 10 0 0 rfl rfl rfl rfl

/-- C9: the packaging step always adds a `README.txt` entry on top of one
entry per supplied (name, contents) pair — also when no items are
supplied. -/
theorem zip_always_includes_readme (items : List (String × String)) :
    "README.txt" ∈ (zip_items items).map Prod.fst ∧
    (zip_items items).length = items.length + 1 ∧
    ∀ it ∈ items, it ∈ zip_items items := by
  refine ⟨?_, ?_, ?_⟩
  · simp [zip_items]
  · simp [zip_items]
  · intro it hit
    simp [zip_items, hit]

/-- C10: the PCoA plot is rendered exactly when H has fewer than 500 sample
columns, while the relative-weight and model-fit plots are rendered
regardless of sample count. -/
theorem pcoa_only_below_500 (transformed : Decomposition) :
    ("pcoa" ∈ plots_drawn transformed
      ↔ transformed.h.columns.length < 500) ∧
    "relative_weight" ∈ plots_drawn transformed ∧
    "modelfit" ∈ plots_drawn transformed := by
  unfold plots_drawn
  by_cases h : transformed.h.columns.length < 500 <;> simp [h]
